import Mathlib

/-!
Verification of the outfit-recommendation engine in `app.py`.

The Python code is shallowly embedded below.  Python floats are modelled as
rationals (`ℚ`); all scoring constants in the source are exact decimals.
Python strings are Lean `String`s; `str.lower` is modelled by mapping
`Char.toLower` over the characters (the source data is Korean plus ASCII,
where the two agree).  Streamlit session state is made explicit: the value of
`st.session_state["temp_ban_items"]` read by `score_item` is passed as the
`temp_ban` argument, and the chat-driven recomputation flow of the app body
is modelled by the `Session`/`chat_step`/`run_recommend` definitions.
-/

namespace OOTD

/-- Python whitespace characters (enough for `str.strip` and `\s` on the
ASCII/Korean inputs handled here). -/
def isPySpace (c : Char) : Bool :=
  c = ' ' || c = '\t' || c = '\n' || c = '\r' || c = '\x0b' || c = '\x0c'

/-- `str.lower`, character by character (identity on Korean, lowers ASCII). -/
def lowerStr (s : String) : String :=
  String.mk (s.toList.map Char.toLower)

/-- Contiguous-sublist test on character lists. -/
def charsIn (a b : List Char) : Bool :=
  (List.range (b.length + 1)).any (fun i => a.isPrefixOf (b.drop i))

/-- Python's substring test `a in b` (contiguous substring). -/
def strIn (a b : String) : Bool :=
  charsIn a.toList b.toList

/-- `str.strip()`: drop Python whitespace from both ends. -/
def pyStrip (s : String) : String :=
  String.mk (((s.toList.dropWhile isPySpace).reverse.dropWhile isPySpace).reverse)

/-- Python slicing `s[-n:]`: the last `n` characters of `s`. -/
def takeRight (s : String) (n : Nat) : String :=
  String.mk (s.toList.drop (s.toList.length - n))

/-- `dict.fromkeys` de-duplication: keep the first occurrence of each element,
preserving order.  `seen` accumulates the elements already emitted. -/
def dedupGo (seen : List String) : List String → List String
  | [] => []
  | x :: xs => if x ∈ seen then dedupGo seen xs else x :: dedupGo (x :: seen) xs

/-- `list(dict.fromkeys(l))` from the source. -/
def dedupKeepFirst (l : List String) : List String :=
  dedupGo [] l

/-! ### Data model (app.py dataclasses and dicts) -/

/-- `Weather` dataclass (app.py lines 18-26). -/
structure Weather where
  city : String
  temp_c : ℚ
  feels_c : ℚ
  humidity : Int
  wind_ms : ℚ
  rain : Bool
  desc : String
deriving DecidableEq

/-- A wardrobe item dict: `name`, `tags`, optional `warmth`, optional
`rain_ok` (image fields are irrelevant to scoring and omitted). -/
structure Item where
  name : String
  tags : List String
  warmth : Option ℚ
  rain_ok : Option Bool
deriving DecidableEq

/-- The `signals` sub-dict of the preferences dict. -/
structure Signals where
  prefer_signals : List String
  avoid_signals : List String
  prefer_colors : List String
  avoid_colors : List String
deriving DecidableEq

/-- The preferences dict built by `rebuild_profile` (app.py lines 614-620). -/
structure Prefs where
  warmth_bias : ℚ
  style_dna : String
  signals : Signals
  banned_keywords : List String
deriving DecidableEq

/-- Result dict of `extract_signals` (app.py lines 308-314). -/
structure ExtractResult where
  prefer_signals : List String
  avoid_signals : List String
  prefer_colors : List String
  avoid_colors : List String
  banned_from_text : List String
deriving DecidableEq

/-- A mood record dict (`text`, `ts`). -/
structure MoodRecord where
  text : String
  ts : String
deriving DecidableEq

/-- A chat message dict (`role`, `content`). -/
structure ChatMessage where
  role : String
  content : String
deriving DecidableEq

/-- The five-category wardrobe mapping. -/
structure Wardrobe where
  tops : List Item
  bottoms : List Item
  outer : List Item
  shoes : List Item
  extras : List Item
deriving DecidableEq

/-- The outfit produced by `build_outfit` (app.py line 469). -/
structure Outfit where
  top : Option Item
  bottom : Option Item
  outer : Option Item
  shoes : Option Item
  extras : List String
deriving DecidableEq

/-- Result dict of `recommend_colors` (app.py line 430). -/
structure ColorPlan where
  base : String
  accent : String
  bottom_hint : String
  shoe_hint : String
deriving DecidableEq

/-! ### Keyword tables (app.py lines 253-282) -/

/-- `STYLE_KEYWORDS` (app.py lines 253-263). -/
def STYLE_KEYWORDS : List (String × List String) :=
  [("미니멀", ["minimal", "미니멀", "깔끔", "심플", "정갈"]),
   ("클린", ["clean", "클린", "단정", "정돈"]),
   ("시크", ["chic", "시크", "도시적", "차분"]),
   ("러블리", ["lovely", "러블리", "사랑스", "포근"]),
   ("스트릿", ["street", "스트릿", "힙", "힙한"]),
   ("빈티지", ["vintage", "빈티지", "레트로"]),
   ("코지", ["cozy", "코지", "포근", "따뜻", "부드럽"]),
   ("모던", ["modern", "모던"]),
   ("아방가르드", ["avant", "아방", "실험적"])]

/-- `COLOR_KEYWORDS` (app.py lines 265-280). -/
def COLOR_KEYWORDS : List (String × List String) :=
  [("black", ["블랙", "검정", "검은", "black"]),
   ("white", ["화이트", "흰", "white"]),
   ("gray", ["그레이", "회색", "gray"]),
   ("navy", ["네이비", "남색", "navy"]),
   ("beige", ["베이지", "카멜", "beige", "camel"]),
   ("brown", ["브라운", "갈색", "brown"]),
   ("blue", ["블루", "파랑", "blue"]),
   ("green", ["그린", "초록", "green", "올리브", "olive"]),
   ("red", ["레드", "빨강", "red"]),
   ("pink", ["핑크", "분홍", "pink"]),
   ("purple", ["퍼플", "보라", "purple"]),
   ("pastel", ["파스텔", "pastel"]),
   ("vivid", ["비비드", "쨍", "선명", "vivid"]),
   ("neutral", ["뉴트럴", "무채색", "neutral", "모노톤", "모노"])]

/-- `REASK_TRIGGERS` (app.py line 282).  Defined in the source but never
referenced anywhere else in it. -/
def REASK_TRIGGERS : List String :=
  ["바꿔", "다시", "새로", "다른", "재추천", "다르게", "change", "reroll"]

/-! ### The negation regex of `extract_signals`

The source runs `re.findall(r"([가-힣a-z0-9]+)\s*(빼|제외|싫어|말고)", s)` and
keeps the captured words.  The scanner below reproduces the regex engine's
behaviour on this pattern: at each position, take the maximal run of word
characters, backtrack the greedy `+` from longest to shortest, skip
whitespace, and try the four markers in alternation order; on a match, emit
the captured word and resume after the marker. -/

/-- The character class `[가-힣a-z0-9]` (the text is already lower-cased). -/
def isWordChar (c : Char) : Bool :=
  ('a' ≤ c && c ≤ 'z') || ('0' ≤ c && c ≤ '9') ||
    (0xAC00 ≤ c.toNat && c.toNat ≤ 0xD7A3)

/-- The negation markers `빼|제외|싫어|말고`, in alternation order. -/
def NEG_MARKERS : List (List Char) :=
  [['빼'], ['제', '외'], ['싫', '어'], ['말', '고']]

/-- Try the markers in order at the head of `l`; on success return the
remainder after the marker. -/
def markerAt (l : List Char) : Option (List Char) :=
  (NEG_MARKERS.find? (fun m => m.isPrefixOf l)).map (fun m => l.drop m.length)

/-- Backtrack the greedy `([가-힣a-z0-9]+)`: try captured-word lengths `k`
from longest to shortest.  `run` is the maximal word-character run, `rest`
the input after it.  Whitespace (`\s*`) is skipped greedily; no marker starts
with whitespace, so greedy skipping is complete. -/
def tryLens (run rest : List Char) : Nat → Option (List Char × List Char)
  | 0 => none
  | k + 1 =>
    let w := run.take (k + 1)
    let after := (run.drop (k + 1) ++ rest).dropWhile isPySpace
    match markerAt after with
    | some r => some (w, r)
    | none => tryLens run rest k

/-- One left-to-right scan of `re.findall`, fuelled by the input length
(each step consumes at least one character, so the fuel suffices). -/
def scanNegFuel : Nat → List Char → List (List Char)
  | 0, _ => []
  | _, [] => []
  | n + 1, c :: cs =>
    if isWordChar c then
      let run := (c :: cs).takeWhile isWordChar
      let rest := (c :: cs).dropWhile isWordChar
      match tryLens run rest run.length with
      | some (w, r) => w :: scanNegFuel n r
      | none => scanNegFuel n cs
    else scanNegFuel n cs

/-- All captured words of the negation regex, in order of occurrence. -/
def scanNeg (l : List Char) : List (List Char) :=
  scanNegFuel l.length l

/-! ### `extract_signals` (app.py lines 285-314) -/

def extract_signals (bundle_text : String) : ExtractResult :=
  let s := lowerStr bundle_text
  let words :=
    ((scanNeg s.toList).filter (fun w => 2 ≤ w.length)).map (fun w => String.mk w)
  let prefer :=
    (STYLE_KEYWORDS.filter (fun lk => lk.2.any (fun k => strIn (lowerStr k) s))).map
      (fun lk => lk.1)
  let colorHits :=
    (COLOR_KEYWORDS.filter (fun ck => ck.2.any (fun k => strIn (lowerStr k) s))).map
      (fun ck => ck.1)
  let negGlobal := (["빼", "제외", "싫", "말고"] : List String).any (fun x => strIn x s)
  { prefer_signals := dedupKeepFirst prefer
    avoid_signals := dedupKeepFirst words
    prefer_colors := dedupKeepFirst (if negGlobal then [] else colorHits)
    avoid_colors := dedupKeepFirst (if negGlobal then colorHits else [])
    banned_from_text := dedupKeepFirst words }

/-! ### `rebuild_profile` (app.py lines 317-340) -/

def rebuild_profile (prefs : Prefs) (mood_records : List MoodRecord)
    (chat_messages : List ChatMessage) (banned_manual : List String) : Prefs :=
  let mood_texts :=
    ((mood_records.map (fun x => pyStrip x.text)).filter (fun t => t ≠ ""))
  let chat_user_texts :=
    ((chat_messages.filter
        (fun m => m.role == "user" && pyStrip m.content ≠ "")).map
      (fun m => pyStrip m.content))
  let style_dna :=
    takeRight (pyStrip (String.intercalate "\n" (mood_texts ++ chat_user_texts))) 2500
  let sig := extract_signals style_dna
  let banned :=
    dedupKeepFirst
      (((banned_manual.map pyStrip).filter (fun x => x ≠ "")) ++ sig.banned_from_text)
  { prefs with
    style_dna := style_dna
    signals :=
      { prefer_signals := sig.prefer_signals
        avoid_signals := sig.avoid_signals
        prefer_colors := sig.prefer_colors
        avoid_colors := sig.avoid_colors }
    banned_keywords := banned }

/-! ### Scoring (app.py lines 128-139, 346-396) -/

/-- `temp_band` (app.py lines 128-139). -/
def temp_band (feels_c : ℚ) : String :=
  if feels_c ≤ 0 then "매우 추움"
  else if feels_c ≤ 8 then "추움"
  else if feels_c ≤ 16 then "쌀쌀"
  else if feels_c ≤ 23 then "적당"
  else if feels_c ≤ 29 then "더움"
  else "매우 더움"

/-- The band-to-warmth dict lookup inside `ideal_warmth` (app.py line 348).
`temp_band` only ever produces the six keys, so the final 0 is unreachable. -/
def bandBase (band : String) : ℚ :=
  if band = "매우 추움" then 6
  else if band = "추움" then 5
  else if band = "쌀쌀" then 3.5
  else if band = "적당" then 2.5
  else if band = "더움" then 1.5
  else if band = "매우 더움" then 0.5
  else 0

/-- `ideal_warmth` (app.py lines 346-349). -/
def ideal_warmth (feels_c : ℚ) (bias : ℚ) : ℚ :=
  max 0 (bandBase (temp_band feels_c) + bias)

/-- The `tag_guess` dict lookup in `score_item` (app.py lines 364-374),
with default `""`. -/
def TAG_GUESS (p : String) : String :=
  if p = "미니멀" then "minimal"
  else if p = "클린" then "clean"
  else if p = "시크" then "chic"
  else if p = "러블리" then "lovely"
  else if p = "스트릿" then "street"
  else if p = "빈티지" then "vintage"
  else if p = "코지" then "cozy"
  else if p = "모던" then "modern"
  else if p = "아방가르드" then "avant"
  else ""

/-- The wanted-tags loop of `score_item` (app.py lines 358-360). -/
def tagScore (wanted_tags tags : List String) : ℚ :=
  wanted_tags.foldl (fun sc t => if t ∈ tags then sc + 2.0 else sc) 0

/-- The prefer-signals loop of `score_item` (app.py lines 363-376). -/
def signalScore (prefer : List String) (tags : List String) : ℚ :=
  prefer.foldl
    (fun sc p => if TAG_GUESS p ≠ "" ∧ TAG_GUESS p ∈ tags then sc + 1.0 else sc) 0

/-- The rain branch of `score_item` (app.py lines 378-382). -/
def rainScore (rain : Bool) (rain_ok : Bool) (category : String) : ℚ :=
  if rain then
    (if rain_ok = true ∨ (category ≠ "outer" ∧ category ≠ "shoes") then 0.5 else -1.0)
  else 0

/-- The warmth-closeness term of `score_item` (app.py lines 384-386). -/
def warmthScore (category : String) (warmth : ℚ) (feels_c : ℚ) (bias : ℚ) : ℚ :=
  if category = "tops" ∨ category = "bottoms" ∨ category = "outer" then
    max 0 (2.2 - |warmth - ideal_warmth feels_c bias|)
  else 0

/-- The banned-keywords loop of `score_item` (app.py lines 388-390):
-7.0 for every entry that is a substring of the lower-cased item name
`name`. -/
def bannedScore (banned : List String) (name : String) : ℚ :=
  match banned with
  | [] => 0
  | b :: bs => (if strIn (lowerStr b) name = true then -7.0 else 0) + bannedScore bs name

/-- The transient-ban branch of `score_item` (app.py lines 392-394);
`temp_ban` is the session list `temp_ban_items`, `rawName` the raw name. -/
def tempBanScore (temp_ban : List String) (rawName : String) : ℚ :=
  if rawName ∈ temp_ban then -999.0 else 0

/-- `score_item` (app.py lines 352-396).  The sequential accumulation of the
source is the sum of its six contributions, in source order. -/
def score_item (item : Item) (wanted_tags : List String) (prefs : Prefs)
    (weather : Weather) (category : String) (temp_ban : List String) : ℚ :=
  tagScore wanted_tags item.tags
    + signalScore prefs.signals.prefer_signals item.tags
    + rainScore weather.rain (item.rain_ok.getD false) category
    + warmthScore category (item.warmth.getD 0.0) weather.feels_c prefs.warmth_bias
    + bannedScore prefs.banned_keywords (lowerStr item.name)
    + tempBanScore temp_ban item.name

/-! ### `pick_best` (app.py lines 399-404)

The source sorts the scored list with Python's stable sort, descending, and
takes the first element.  `insertDesc`/`sortDesc` compute exactly that stable
descending order: an element is placed before the first strictly
lower-scoring element, so equal scores keep their original order. -/

def insertDesc (sc : Item → ℚ) (x : Item) : List Item → List Item
  | [] => [x]
  | y :: ys => if sc y > sc x then y :: insertDesc sc x ys else x :: y :: ys

def sortDesc (sc : Item → ℚ) : List Item → List Item
  | [] => []
  | x :: xs => insertDesc sc x (sortDesc sc xs)

/-- `pick_best` (app.py lines 399-404): `None` on an empty list, otherwise
the head of the stable descending sort by score. -/
def pick_best (items : List Item) (wanted_tags : List String) (prefs : Prefs)
    (weather : Weather) (category : String) (temp_ban : List String) : Option Item :=
  (sortDesc (fun it => score_item it wanted_tags prefs weather category temp_ban)
    items).head?

/-! ### `recommend_colors` (app.py lines 407-430) -/

/-- The default-palette else-branch of `recommend_colors`
(app.py lines 415-426): temperature-banded defaults, then the
formal/smart adjustment. -/
def default_base_accent (weather : Weather) (tpo_tags : List String) : String × String :=
  let d :=
    if weather.feels_c ≤ 8 then ("navy", "beige")
    else if weather.feels_c ≤ 16 then ("gray", "navy")
    else if weather.feels_c ≤ 23 then ("neutral", "blue")
    else ("white", "green")
  if "formal" ∈ tpo_tags ∨ "smart" ∈ tpo_tags then
    ((if d.1 = "white" ∨ d.1 = "green" ∨ d.1 = "pink" then "navy" else d.1),
     (if d.2 = "red" ∨ d.2 = "pink" ∨ d.2 = "vivid" then "white" else d.2))
  else d

def recommend_colors (weather : Weather) (tpo_tags : List String) (prefs : Prefs) :
    ColorPlan :=
  let sig := prefs.signals
  let prefer := sig.prefer_colors.filter (fun c => c ∉ sig.avoid_colors)
  let ba :=
    match prefer with
    | c0 :: rest => (c0, match rest with | c1 :: _ => c1 | [] => "neutral")
    | [] => default_base_accent weather tpo_tags
  { base := ba.1
    accent := ba.2
    bottom_hint :=
      if weather.rain then "dark" else if ba.1 = "white" then "navy" else "gray"
    shoe_hint := if "black" ∈ sig.avoid_colors then "navy" else "black" }

/-! ### `build_outfit` (app.py lines 454-482)

The human-readable reason strings (pure presentation) are not modelled; the
outfit and the color plan are. -/

def build_outfit (wardrobe : Wardrobe) (weather : Weather) (tpo_tags : List String)
    (prefs : Prefs) (temp_ban : List String) : Outfit × ColorPlan :=
  let wanted := dedupKeepFirst tpo_tags
  let top := pick_best wardrobe.tops wanted prefs weather "tops" temp_ban
  let bottom := pick_best wardrobe.bottoms wanted prefs weather "bottoms" temp_ban
  let shoes := pick_best wardrobe.shoes wanted prefs weather "shoes" temp_ban
  let need_outer := weather.feels_c ≤ 16 ∨ weather.rain = true ∨ weather.wind_ms ≥ 7
  let outer :=
    if need_outer then pick_best wardrobe.outer wanted prefs weather "outer" temp_ban
    else none
  let extras :=
    (if weather.rain then ["우산"] else []) ++
      (if weather.feels_c ≤ 8 then ["머플러"] else [])
  (⟨top, bottom, outer, shoes, extras⟩, recommend_colors weather tpo_tags prefs)

/-! ### Default wardrobe and app flow (app.py lines 212-237, 594-624, 784-789,
917-972) -/

/-- `default_wardrobe` (app.py lines 212-237). -/
def default_wardrobe : Wardrobe :=
  { tops :=
      [⟨"화이트 셔츠", ["formal", "smart", "neutral", "clean"], some 2, none⟩,
       ⟨"맨투맨", ["casual", "cozy"], some 3, none⟩,
       ⟨"블랙 니트", ["smart", "casual", "black", "minimal"], some 4, none⟩]
    bottoms :=
      [⟨"청바지", ["casual"], some 2, none⟩,
       ⟨"슬랙스", ["formal", "smart", "clean"], some 2, none⟩,
       ⟨"조거팬츠", ["sport", "casual", "cozy"], some 2, none⟩]
    outer :=
      [⟨"자켓(블레이저)", ["formal", "smart", "clean"], some 3, some false⟩,
       ⟨"바람막이", ["outdoor", "sport", "casual"], some 2, some true⟩,
       ⟨"패딩", ["casual", "cozy"], some 6, some true⟩]
    shoes :=
      [⟨"스니커즈", ["casual", "street", "sport"], none, some true⟩,
       ⟨"로퍼", ["formal", "smart", "clean"], none, some false⟩]
    extras :=
      [⟨"우산", ["rain"], none, none⟩,
       ⟨"머플러", ["cold", "cozy"], none, none⟩] }

/-- The initial preferences dict (app.py lines 614-620). -/
def init_prefs : Prefs :=
  { warmth_bias := 0
    style_dna := ""
    signals := ⟨[], [], [], []⟩
    banned_keywords := [] }

/-- The session state the recommendation flow reads and writes:
`wardrobe`, `mood_records`, `messages`, the manual ban list, `prefs`, and
`temp_ban_items` (initialized `[]` at app.py line 622 and never written
anywhere else in the source). -/
structure Session where
  wardrobe : Wardrobe
  mood_records : List MoodRecord
  messages : List ChatMessage
  banned_manual : List String
  prefs : Prefs
  temp_ban_items : List String
deriving DecidableEq

/-- One recommendation pass of the app body: rebuild the profile
(app.py lines 784-789), then build the outfit (app.py line 919), reading
`temp_ban_items` from the session. -/
def run_recommend (s : Session) (weather : Weather) (tpo_tags : List String) :
    Outfit × ColorPlan :=
  let p := rebuild_profile s.prefs s.mood_records s.messages s.banned_manual
  build_outfit s.wardrobe weather tpo_tags p s.temp_ban_items

/-- The chat-input handler (app.py lines 968-972): append the user turn and a
fixed assistant turn, then rerun.  No other session field is touched; in
particular `temp_ban_items` is not modified. -/
def chat_step (s : Session) (user_text : String) : Session :=
  { s with
    messages :=
      s.messages ++
        [⟨"user", user_text⟩, ⟨"assistant", "반영했어! 위 코디를 다시 계산할게."⟩] }

/-! ### The spec's diversity selector (absent from the source) -/

/-- The 0-indexed recency rank of `n` in the history (`none` if absent). -/
def historyPos (history : List String) (n : String) : Option Nat :=
  match history with
  | [] => none
  | h :: t => if h = n then some 0 else (historyPos t n).map (fun k => k + 1)

/-- Modelled from the spec: the Diversity Selector of spec section 4.4, which
is missing from the code — `pick_best` (app.py lines 399-404) has no top-K
restriction and no diversity penalty, and no `recent_picks` or
`diversity_strength` appear anywhere in the source.  Following the spec's
words: restrict to the top-K ranked candidates (K = 6, within the spec's 6-8
range); for a candidate whose name sits at 0-indexed `position` in the
recent-pick history apply the penalty
`-(strength * (1 - position / history.length))`; pick the maximal adjusted
score; fall back to the top-ranked candidate if the discounted pass is
empty. -/
def pick_best_diverse (items : List Item) (wanted_tags : List String) (prefs : Prefs)
    (weather : Weather) (category : String) (temp_ban : List String)
    (history : List String) (strength : ℚ) : Option Item :=
  let sc := fun it => score_item it wanted_tags prefs weather category temp_ban
  let ranked := sortDesc sc items
  let topk := ranked.take 6
  let adj := fun it =>
    sc it +
      match historyPos history it.name with
      | some pos => -(strength * (1 - (pos : ℚ) / (history.length : ℚ)))
      | none => 0
  match (sortDesc adj topk).head? with
  | some it => some it
  | none => ranked.head?

/-! ### Concrete scenario data used by the theorems -/

/-- Manual weather, feels-like 15 °C, no rain (cool band). -/
def w15 : Weather := ⟨"Seoul,KR", 16, 15, 50, 1.5, false, "맑음"⟩

/-- Manual weather, feels-like -5 °C, no rain (very-cold band). -/
def wCold : Weather := ⟨"Seoul,KR", -5, -5, 50, 1.5, false, "맑음"⟩

/-- Manual weather, feels-like 10 °C, no rain (cool band). -/
def wCool : Weather := ⟨"Seoul", 10, 10, 50, 1, false, "맑음"⟩

/-- A fresh session: default wardrobe, no mood records, no chat, no manual
bans, initial preferences, empty `temp_ban_items`. -/
def session0 : Session := ⟨default_wardrobe, [], [], [], init_prefs, []⟩

/-- Preferences rebuilt from the single mood text "블랙은 빼줘". -/
def prefsBlack : Prefs :=
  rebuild_profile init_prefs [⟨"블랙은 빼줘", "2025-01-01 09:00"⟩] [] []

/-- The default wardrobe's black knit top. -/
def blackKnit : Item := ⟨"블랙 니트", ["smart", "casual", "black", "minimal"], some 4, none⟩

/-- The default wardrobe's sweatshirt top. -/
def sweatTop : Item := ⟨"맨투맨", ["casual", "cozy"], some 3, none⟩

/-- Two equal-scoring casual shoes. -/
def shoeA : Item := ⟨"신발a", ["casual"], none, none⟩

def shoeB : Item := ⟨"신발b", ["casual"], none, none⟩

/-- Preferences with the manual banned keyword "x". -/
def prefsBanX : Prefs := { init_prefs with banned_keywords := ["x"] }

/-- Two shoes whose names both contain the banned keyword "x". -/
def shoeX1 : Item := ⟨"x신발1", [], none, none⟩

def shoeX2 : Item := ⟨"x신발2", [], none, none⟩

/-- An item whose name contains the avoid-signal word "black". -/
def blackShirt : Item := ⟨"black shirt", [], some 2, none⟩

/-- Initial preferences plus the avoid signal "black" (and nothing else). -/
def prefsAvoidBlack : Prefs := { init_prefs with signals := ⟨[], ["black"], [], []⟩ }

/-! ### Helper lemmas: de-duplication -/

theorem mem_dedupGo (x : String) :
    ∀ (l seen : List String), x ∈ dedupGo seen l ↔ x ∈ l ∧ x ∉ seen := by
  intro l
  induction l with
  | nil => intro seen; simp [dedupGo]
  | cons y ys ih =>
    intro seen
    by_cases hy : y ∈ seen
    · rw [dedupGo, if_pos hy, ih]
      constructor
      · rintro ⟨h1, h2⟩; exact ⟨List.mem_cons_of_mem y h1, h2⟩
      · rintro ⟨h1, h2⟩
        rcases List.mem_cons.mp h1 with h1 | h1
        · subst h1; exact absurd hy h2
        · exact ⟨h1, h2⟩
    · rw [dedupGo, if_neg hy]
      constructor
      · intro hmem
        rcases List.mem_cons.mp hmem with h1 | h1
        · subst h1; exact ⟨List.mem_cons_self _ _, hy⟩
        · rcases (ih (y :: seen)).mp h1 with ⟨h2, h3⟩
          refine ⟨List.mem_cons_of_mem y h2, fun hx => h3 (List.mem_cons_of_mem y hx)⟩
      · rintro ⟨h1, h2⟩
        rcases List.mem_cons.mp h1 with h1 | h1
        · subst h1; exact List.mem_cons_self _ _
        · by_cases hxy : x = y
          · subst hxy; exact List.mem_cons_self _ _
          · exact List.mem_cons_of_mem y
              ((ih (y :: seen)).mpr ⟨h1, by
                intro hx
                rcases List.mem_cons.mp hx with h | h
                · exact hxy h
                · exact h2 h⟩)

theorem nodup_dedupGo : ∀ (l seen : List String), (dedupGo seen l).Nodup := by
  intro l
  induction l with
  | nil => intro seen; simp [dedupGo]
  | cons y ys ih =>
    intro seen
    by_cases hy : y ∈ seen
    · rw [dedupGo, if_pos hy]; exact ih seen
    · rw [dedupGo, if_neg hy]
      refine List.nodup_cons.mpr ⟨?_, ih (y :: seen)⟩
      intro hmem
      exact ((mem_dedupGo y ys (y :: seen)).mp hmem).2 (List.mem_cons_self _ _)

theorem dedupGo_sublist : ∀ (l seen : List String), List.Sublist (dedupGo seen l) l := by
  intro l
  induction l with
  | nil => intro seen; simp [dedupGo]
  | cons y ys ih =>
    intro seen
    by_cases hy : y ∈ seen
    · rw [dedupGo, if_pos hy]; exact (ih seen).cons y
    · rw [dedupGo, if_neg hy]; exact (ih (y :: seen)).cons₂ y

theorem mem_dedupKeepFirst (x : String) (l : List String) :
    x ∈ dedupKeepFirst l ↔ x ∈ l := by
  rw [dedupKeepFirst, mem_dedupGo]
  simp

theorem dedupKeepFirst_nodup (l : List String) : (dedupKeepFirst l).Nodup :=
  nodup_dedupGo l []

theorem dedupKeepFirst_sublist (l : List String) : List.Sublist (dedupKeepFirst l) l :=
  dedupGo_sublist l []

/-! ### Helper lemmas: the banned-keywords contribution -/

theorem bannedScore_nonpos (name : String) : ∀ l, bannedScore l name ≤ 0 := by
  intro l
  induction l with
  | nil => simp [bannedScore]
  | cons b bs ih =>
    rw [bannedScore]
    by_cases hb : strIn (lowerStr b) name = true
    · rw [if_pos hb]; linarith
    · rw [if_neg hb]; linarith

theorem bannedScore_le_neg7 (name : String) :
    ∀ l, (∃ b ∈ l, strIn (lowerStr b) name = true) → bannedScore l name ≤ -7 := by
  intro l
  induction l with
  | nil => rintro ⟨b, hb, _⟩; exact absurd hb (List.not_mem_nil b)
  | cons b bs ih =>
    rintro ⟨b0, hb0, hmatch⟩
    rw [bannedScore]
    rcases List.mem_cons.mp hb0 with h | h
    · subst h
      rw [if_pos hmatch]
      have := bannedScore_nonpos name bs
      linarith
    · have h1 := ih ⟨b0, h, hmatch⟩
      by_cases hb : strIn (lowerStr b) name = true
      · rw [if_pos hb]; linarith
      · rw [if_neg hb]; linarith

/-- Splitting off the banned-keywords contribution of `score_item`. -/
theorem score_item_split_banned (item : Item) (wt : List String) (p : Prefs)
    (w : Weather) (c : String) (tb : List String) :
    score_item item wt p w c tb
      = score_item item wt { p with banned_keywords := [] } w c tb
          + bannedScore p.banned_keywords (lowerStr item.name) := by
  obtain ⟨wb, dna, sig, bk⟩ := p
  simp only [score_item]
  have h0 : bannedScore [] (lowerStr item.name) = 0 := rfl
  rw [h0]
  ring

/-! ### Helper lemmas: the stable descending sort of `pick_best` -/

theorem insertDesc_head (sc : Item → ℚ) (x : Item) :
    ∀ (l : List Item) (m : Item), l.head? = some m →
      (insertDesc sc x l).head? = some (if sc m > sc x then m else x) := by
  intro l m hl
  cases l with
  | nil => simp at hl
  | cons y ys =>
    have hym : y = m := by simpa using hl
    subst hym
    by_cases h : sc y > sc x
    · rw [insertDesc, if_pos h, if_pos h]; rfl
    · rw [insertDesc, if_neg h, if_neg h]; rfl

theorem sortDesc_head_first_max (sc : Item → ℚ) :
    ∀ (items : List Item), items ≠ [] →
      ∃ i, ∃ hi : i < items.length,
        (sortDesc sc items).head? = some (items.get ⟨i, hi⟩) ∧
        (∀ j (hj : j < items.length),
          sc (items.get ⟨j, hj⟩) ≤ sc (items.get ⟨i, hi⟩)) ∧
        (∀ j (hj : j < items.length),
          sc (items.get ⟨j, hj⟩) = sc (items.get ⟨i, hi⟩) → i ≤ j) := by
  intro items
  induction items with
  | nil => intro h; exact absurd rfl h
  | cons x xs ih =>
    intro _
    by_cases hxs : xs = []
    · subst hxs
      refine ⟨0, by simp, rfl, ?_, ?_⟩
      · intro j hj
        have hj0 : j = 0 := Nat.lt_one_iff.mp (by simpa using hj)
        subst hj0
        exact le_rfl
      · intro j _ _
        exact Nat.zero_le j
    · obtain ⟨i, hi, hhead, hmax, hfirst⟩ := ih hxs
      have hins := insertDesc_head sc x (sortDesc sc xs) (xs.get ⟨i, hi⟩) hhead
      by_cases hc : sc (xs.get ⟨i, hi⟩) > sc x
      · refine ⟨i + 1, Nat.succ_lt_succ hi, ?_, ?_, ?_⟩
        · rw [sortDesc, hins, if_pos hc]
          rfl
        · intro j hj
          cases j with
          | zero => exact le_of_lt hc
          | succ k => exact hmax k (Nat.lt_of_succ_lt_succ hj)
        · intro j hj heq
          cases j with
          | zero => exact absurd heq.symm (ne_of_gt hc)
          | succ k =>
            exact Nat.succ_le_succ (hfirst k (Nat.lt_of_succ_lt_succ hj) heq)
      · refine ⟨0, Nat.succ_pos _, ?_, ?_, ?_⟩
        · rw [sortDesc, hins, if_neg hc]
          rfl
        · intro j hj
          cases j with
          | zero => exact le_rfl
          | succ k =>
            exact le_trans (hmax k (Nat.lt_of_succ_lt_succ hj)) (le_of_not_lt hc)
        · intro j _ _
          exact Nat.zero_le j

/-- A `pick_best` result is a maximal-score member of the full list. -/
theorem pick_best_mem_max (items : List Item) (wt : List String) (p : Prefs)
    (w : Weather) (c : String) (tb : List String) (x : Item)
    (h : pick_best items wt p w c tb = some x) :
    x ∈ items ∧ ∀ y ∈ items, score_item y wt p w c tb ≤ score_item x wt p w c tb := by
  have hne : items ≠ [] := by
    intro he
    subst he
    simp [pick_best, sortDesc] at h
  obtain ⟨i, hi, hhead, hmax, _⟩ :=
    sortDesc_head_first_max (fun it => score_item it wt p w c tb) items hne
  have hx : items.get ⟨i, hi⟩ = x := by
    have := hhead.symm.trans h
    exact Option.some.inj this
  subst hx
  refine ⟨items.get_mem i hi, ?_⟩
  intro y hy
  obtain ⟨⟨j, hj⟩, rfl⟩ := List.mem_iff_get.mp hy
  exact hmax j hj

/-! ### Helper lemmas: warmth closeness and evaluation -/

theorem ideal_warmth_table (feels bias : ℚ) :
    ideal_warmth feels bias
      = max 0 ((if feels ≤ 0 then (6 : ℚ)
          else if feels ≤ 8 then 5
          else if feels ≤ 16 then 3.5
          else if feels ≤ 23 then 2.5
          else if feels ≤ 29 then 1.5
          else 0.5) + bias) := by
  simp only [ideal_warmth, temp_band]
  split_ifs <;> rfl

theorem warmthScore_anti (c : String) (f b w1 w2 : ℚ)
    (h : |w1 - ideal_warmth f b| ≤ |w2 - ideal_warmth f b|) :
    warmthScore c w2 f b ≤ warmthScore c w1 f b := by
  unfold warmthScore
  split_ifs
  · exact max_le_max le_rfl (by linarith)
  · exact le_rfl

theorem warmthScore_strict_anti (c : String)
    (hc : c = "tops" ∨ c = "bottoms" ∨ c = "outer") (f b w1 w2 : ℚ)
    (h1 : |w1 - ideal_warmth f b| < |w2 - ideal_warmth f b|)
    (h2 : |w1 - ideal_warmth f b| < 2.2) :
    warmthScore c w2 f b < warmthScore c w1 f b := by
  unfold warmthScore
  rw [if_pos hc, if_pos hc]
  have hpos : (0 : ℚ) < 2.2 - |w1 - ideal_warmth f b| := by linarith
  rw [max_eq_right (le_of_lt hpos)]
  rcases le_or_lt (2.2 - |w2 - ideal_warmth f b|) 0 with h3 | h3
  · rw [max_eq_left h3]; linarith
  · rw [max_eq_right (le_of_lt h3)]; linarith

theorem tempBanScore_nil (n : String) : tempBanScore [] n = 0 := rfl

/-- Splitting off the transient-ban contribution of `score_item`. -/
theorem score_item_split_tempban (item : Item) (wt : List String) (p : Prefs)
    (w : Weather) (c : String) (tb : List String) :
    score_item item wt p w c tb
      = score_item item wt p w c [] + tempBanScore tb item.name := by
  simp only [score_item, tempBanScore_nil]
  ring

/-- `build_outfit` never reads `style_dna`. -/
theorem build_outfit_dna_irrel (wdr : Wardrobe) (w : Weather) (tags : List String)
    (p : Prefs) (tb : List String) (d : String) :
    build_outfit wdr w tags { p with style_dna := d } tb
      = build_outfit wdr w tags p tb := by
  obtain ⟨wb, dna, sig, bk⟩ := p
  rfl

/-- `score_item` never reads `avoid_signals`. -/
theorem score_item_avoid_irrel (item : Item) (wt : List String) (p : Prefs)
    (w : Weather) (c : String) (tb : List String) (av : List String) :
    score_item item wt
        { p with signals := { p.signals with avoid_signals := av } } w c tb
      = score_item item wt p w c tb := by
  obtain ⟨wb, dna, ⟨ps, asv, pc, ac⟩, bk⟩ := p
  rfl

/-! ### Helper lemmas: concrete evaluations -/

theorem prefsBlack_eval : prefsBlack = { init_prefs with
    style_dna := "블랙은 빼줘"
    signals := ⟨[], ["블랙은"], [], ["black"]⟩
    banned_keywords := ["블랙은"] } := by
  decide

theorem chatted_prefs_eval :
    rebuild_profile init_prefs []
        [⟨"user", "다시"⟩, ⟨"assistant", "반영했어! 위 코디를 다시 계산할게."⟩] []
      = { rebuild_profile init_prefs [] [] [] with style_dna := "다시" } := by
  decide

theorem score_shoeA_eval :
    score_item ⟨"신발a", ["casual"], none, none⟩ ["casual"] init_prefs wCool
      "shoes" [] = 2 := by
  norm_num +decide [score_item, tagScore, signalScore, rainScore, warmthScore,
    bannedScore, tempBanScore, ideal_warmth_table, TAG_GUESS, shoeA, init_prefs, wCool]

theorem score_shoeB_eval :
    score_item ⟨"신발b", ["casual"], none, none⟩ ["casual"] init_prefs wCool
      "shoes" [] = 2 := by
  norm_num +decide [score_item, tagScore, signalScore, rainScore, warmthScore,
    bannedScore, tempBanScore, ideal_warmth_table, TAG_GUESS, shoeB, init_prefs, wCool]

theorem pick_best_shoeAB_eval :
    pick_best [shoeA, shoeB] ["casual"] init_prefs wCool "shoes" [] = some shoeA := by
  norm_num +decide [pick_best, sortDesc, insertDesc, score_shoeA_eval,
    score_shoeB_eval, shoeA, shoeB]

theorem pick_best_diverse_shoeAB_eval :
    pick_best_diverse [shoeA, shoeB] ["casual"] init_prefs wCool "shoes" []
      ["신발a"] 1 = some shoeB := by
  norm_num +decide [pick_best_diverse, sortDesc, insertDesc, historyPos,
    score_shoeA_eval, score_shoeB_eval, shoeA, shoeB]

theorem score_shoeX1_eval :
    score_item ⟨"x신발1", [], none, none⟩ [] prefsBanX wCool "shoes" [] = -7 := by
  norm_num +decide [score_item, tagScore, signalScore, rainScore, warmthScore,
    bannedScore, tempBanScore, ideal_warmth_table, TAG_GUESS, shoeX1, prefsBanX,
    init_prefs, wCool]

theorem score_shoeX2_eval :
    score_item ⟨"x신발2", [], none, none⟩ [] prefsBanX wCool "shoes" [] = -7 := by
  norm_num +decide [score_item, tagScore, signalScore, rainScore, warmthScore,
    bannedScore, tempBanScore, ideal_warmth_table, TAG_GUESS, shoeX2, prefsBanX,
    init_prefs, wCool]

theorem pick_best_shoeX_eval :
    pick_best [shoeX1, shoeX2] [] prefsBanX wCool "shoes" [] = some shoeX1 := by
  norm_num +decide [pick_best, sortDesc, insertDesc, score_shoeX1_eval,
    score_shoeX2_eval, shoeX1, shoeX2]

theorem pick_best_blackTops_eval :
    pick_best default_wardrobe.tops ["casual"] prefsBlack wCold "tops" []
      = some blackKnit := by
  have h1 : score_item
      ⟨"화이트 셔츠", ["formal", "smart", "neutral", "clean"], some 2, none⟩
      ["casual"] prefsBlack wCold "tops" [] = 0 := by
    norm_num +decide [score_item, tagScore, signalScore, rainScore, warmthScore,
      bannedScore, tempBanScore, ideal_warmth_table, TAG_GUESS, prefsBlack_eval,
      init_prefs, wCold]
  have h2 : score_item ⟨"맨투맨", ["casual", "cozy"], some 3, none⟩
      ["casual"] prefsBlack wCold "tops" [] = 2 := by
    norm_num +decide [score_item, tagScore, signalScore, rainScore, warmthScore,
      bannedScore, tempBanScore, ideal_warmth_table, TAG_GUESS, prefsBlack_eval,
      init_prefs, wCold]
  have h3 : score_item
      ⟨"블랙 니트", ["smart", "casual", "black", "minimal"], some 4, none⟩
      ["casual"] prefsBlack wCold "tops" [] = 2.2 := by
    norm_num +decide [score_item, tagScore, signalScore, rainScore, warmthScore,
      bannedScore, tempBanScore, ideal_warmth_table, TAG_GUESS, prefsBlack_eval,
      init_prefs, wCold]
  norm_num +decide [pick_best, default_wardrobe, dedupKeepFirst, dedupGo, sortDesc,
    insertDesc, h1, h2, h3, blackKnit]

/-! ### Claim theorems -/

/-- C1 (the code at the claim's failing input): "다시" contains a
`REASK_TRIGGERS` word and every slot of the default wardrobe has at least two
candidates, yet after the chat turn the recomputed outfit is identical to the
previous one in all four slots — nothing in the source ever writes the
transient ban set `temp_ban_items`, so the reroll guarantee never engages.
The scorer's -999 subtraction itself does work when the set is populated
(final conjunct). -/
theorem reroll_trigger_dead :
    REASK_TRIGGERS.any (fun v => strIn v "다시") = true ∧
    2 ≤ session0.wardrobe.tops.length ∧
    2 ≤ session0.wardrobe.bottoms.length ∧
    2 ≤ session0.wardrobe.outer.length ∧
    2 ≤ session0.wardrobe.shoes.length ∧
    (chat_step session0 "다시").temp_ban_items = session0.temp_ban_items ∧
    (run_recommend (chat_step session0 "다시") w15 ["casual"]).1
        = (run_recommend session0 w15 ["casual"]).1 ∧
    score_item sweatTop ["casual"] init_prefs w15 "tops" ["맨투맨"]
        = score_item sweatTop ["casual"] init_prefs w15 "tops" [] - 999 := by
  refine ⟨by decide, by decide, by decide, by decide, by decide, by decide, ?_, ?_⟩
  · show (build_outfit session0.wardrobe w15 ["casual"]
        (rebuild_profile init_prefs []
          [⟨"user", "다시"⟩, ⟨"assistant", "반영했어! 위 코디를 다시 계산할게."⟩] []) []).1
      = (build_outfit session0.wardrobe w15 ["casual"]
          (rebuild_profile init_prefs [] [] []) []).1
    rw [chatted_prefs_eval, build_outfit_dna_irrel]
  · rw [score_item_split_tempban]
    have ht : tempBanScore ["맨투맨"] sweatTop.name = -999 := by
      norm_num +decide [tempBanScore, sweatTop]
    rw [ht]
    ring

/-- C2 counterexample: two equal-scoring candidates, the first being the most
recent pick (history position 0) with `diversity_strength = 1`.  Under the
claim's penalty the alternative `shoeB` must win — the spec-modelled selector
does pick it — but the code's `pick_best` consults no history and returns
`shoeA`. -/
theorem diversity_penalty_cex :
    score_item shoeA ["casual"] init_prefs wCool "shoes" []
        = score_item shoeB ["casual"] init_prefs wCool "shoes" [] ∧
    shoeA.name = "신발a" ∧ shoeB.name ≠ "신발a" ∧
    pick_best_diverse [shoeA, shoeB] ["casual"] init_prefs wCool "shoes" []
        ["신발a"] 1 = some shoeB ∧
    pick_best [shoeA, shoeB] ["casual"] init_prefs wCool "shoes" [] = some shoeA := by
  refine ⟨?_, by decide, by decide, pick_best_diverse_shoeAB_eval, pick_best_shoeAB_eval⟩
  simp only [shoeA, shoeB, score_shoeA_eval, score_shoeB_eval]

/-- C2 (amended): `pick_best` restricts to no top-K subset and applies no
diversity penalty — it returns a member of the full candidate list whose
(unadjusted) score is maximal, regardless of any recent-pick history. -/
theorem pick_best_no_diversity (items : List Item) (wanted_tags : List String)
    (prefs : Prefs) (weather : Weather) (category : String) (temp_ban : List String)
    (x : Item)
    (h : pick_best items wanted_tags prefs weather category temp_ban = some x) :
    x ∈ items ∧
      ∀ y ∈ items,
        score_item y wanted_tags prefs weather category temp_ban
          ≤ score_item x wanted_tags prefs weather category temp_ban :=
  pick_best_mem_max items wanted_tags prefs weather category temp_ban x h

theorem pick_best_no_diversity_witness :
    shoeA ∈ ([shoeA, shoeB] : List Item) ∧
      ∀ y ∈ ([shoeA, shoeB] : List Item),
        score_item y ["casual"] init_prefs wCool "shoes" []
          ≤ score_item shoeA ["casual"] init_prefs wCool "shoes" [] :=
  pick_best_no_diversity [shoeA, shoeB] ["casual"] init_prefs wCool "shoes" [] shoeA
    pick_best_shoeAB_eval

/-- C3 counterexample: "black" sits in `avoid_signals` and is a substring of
the item's name, yet the score equals the score without the avoid signal —
`score_item` (app.py lines 352-396) never reads `avoid_signals`, so no -2.0
reduction happens. -/
theorem avoid_signals_no_effect_cex :
    prefsAvoidBlack.signals.avoid_signals = ["black"] ∧
    strIn "black" blackShirt.name = true ∧
    score_item blackShirt [] prefsAvoidBlack wCool "shoes" []
        = score_item blackShirt [] init_prefs wCool "shoes" [] := by
  refine ⟨by decide, by decide, ?_⟩
  exact score_item_avoid_irrel blackShirt [] init_prefs wCool "shoes" [] ["black"]

/-- C3 (amended): the scorer is invariant under arbitrary changes of
`avoid_signals`; text-derived avoided words act only through
`banned_keywords` (-7.0 per substring match), and indeed `extract_signals`
emits the identical list as `avoid_signals` and as `banned_from_text`. -/
theorem avoid_signals_routed_to_banned :
    (∀ (item : Item) (wt : List String) (p : Prefs) (w : Weather) (c : String)
        (tb : List String) (av : List String),
      score_item item wt
          { p with signals := { p.signals with avoid_signals := av } } w c tb
        = score_item item wt p w c tb) ∧
    (∀ t : String,
      (extract_signals t).avoid_signals = (extract_signals t).banned_from_text) := by
  constructor
  · intro item wt p w c tb av
    exact score_item_avoid_irrel item wt p w c tb av
  · intro t
    rfl

/-- C4 counterexample: for "블랙은 빼줘" the extractor does put "black" into
`avoid_colors`, but the captured banned word is "블랙은" (with the particle),
which is not a substring of "블랙 니트"; with TPO casual at feels-like -5 °C
the black knit is selected from the default tops although the unbanned
alternative 맨투맨 is in the same category. -/
theorem black_exclusion_cex :
    (extract_signals "블랙은 빼줘").avoid_colors = ["black"] ∧
    pick_best default_wardrobe.tops ["casual"] prefsBlack wCold "tops" []
        = some blackKnit ∧
    strIn "블랙" blackKnit.name = true ∧
    sweatTop ∈ default_wardrobe.tops ∧
    strIn "블랙" sweatTop.name = false ∧
    bannedScore prefsBlack.banned_keywords (lowerStr blackKnit.name) = 0 ∧
    bannedScore prefsBlack.banned_keywords (lowerStr sweatTop.name) = 0 := by
  refine ⟨by decide, pick_best_blackTops_eval, by decide, by decide, by decide, ?_, ?_⟩
  · norm_num +decide [bannedScore, prefsBlack_eval, blackKnit]
  · norm_num +decide [bannedScore, prefsBlack_eval, sweatTop]

/-- C4 (amended): the extractor puts the black key into `avoid_colors` and the
literal word "블랙은" into `banned_from_text` (hence into `banned_keywords`);
`avoid_colors` influences only the color plan — here the shoe hint flips to
navy — not item selection, and "블랙은" does not match names containing plain
"블랙". -/
theorem black_avoid_color_amended :
    (extract_signals "블랙은 빼줘").avoid_colors = ["black"] ∧
    (extract_signals "블랙은 빼줘").banned_from_text = ["블랙은"] ∧
    prefsBlack.banned_keywords = ["블랙은"] ∧
    (recommend_colors wCold ["casual"] prefsBlack).shoe_hint = "navy" := by
  refine ⟨by decide, by decide, by decide, ?_⟩
  norm_num +decide [recommend_colors, default_base_accent, prefsBlack_eval, init_prefs,
    wCold]

/-- C5 counterexample: cool band, occasion ["date"], no preferred colors. The
base is gray, so the claim's date rule would bias the accent toward pink, but
`recommend_colors` (app.py lines 407-430) has no date branch: the accent is
navy. -/
theorem date_accent_cex :
    recommend_colors wCool ["date"] init_prefs = ⟨"gray", "navy", "gray", "black"⟩ ∧
    (recommend_colors wCool ["date"] init_prefs).accent ≠ "pink" := by
  have h : recommend_colors wCool ["date"] init_prefs
      = ⟨"gray", "navy", "gray", "black"⟩ := by
    norm_num +decide [recommend_colors, default_base_accent, init_prefs, wCool]
  refine ⟨h, ?_⟩
  rw [h]
  decide

/-- C5 (amended): with no surviving preferred colors the default palette is
temperature-banded — ≤8 navy/beige, ≤16 gray/navy, ≤23 neutral/blue, >23
white/green — and a formal/smart occasion turns a bright base/accent into
navy/white, which only affects the warm band's white base (giving navy/green);
there is no date-specific adjustment. -/
theorem default_palette_amended (w : Weather) (tags : List String) (p : Prefs)
    (h : p.signals.prefer_colors.filter (fun c => c ∉ p.signals.avoid_colors) = []) :
    (w.feels_c ≤ 8 →
      (recommend_colors w tags p).base = "navy" ∧
      (recommend_colors w tags p).accent = "beige") ∧
    (8 < w.feels_c ∧ w.feels_c ≤ 16 →
      (recommend_colors w tags p).base = "gray" ∧
      (recommend_colors w tags p).accent = "navy") ∧
    (16 < w.feels_c ∧ w.feels_c ≤ 23 →
      (recommend_colors w tags p).base = "neutral" ∧
      (recommend_colors w tags p).accent = "blue") ∧
    (23 < w.feels_c →
      (("formal" ∈ tags ∨ "smart" ∈ tags) →
        (recommend_colors w tags p).base = "navy" ∧
        (recommend_colors w tags p).accent = "green") ∧
      (¬("formal" ∈ tags ∨ "smart" ∈ tags) →
        (recommend_colors w tags p).base = "white" ∧
        (recommend_colors w tags p).accent = "green")) := by
  have hbase : ∀ ba : String × String, default_base_accent w tags = ba →
      (recommend_colors w tags p).base = ba.1 ∧
        (recommend_colors w tags p).accent = ba.2 := by
    intro ba hba
    simp only [recommend_colors, h, hba]
    exact ⟨trivial, trivial⟩
  refine ⟨?_, ?_, ?_, ?_⟩
  · intro h8
    refine hbase ("navy", "beige") ?_
    simp only [default_base_accent]
    rw [if_pos h8]
    by_cases hf : "formal" ∈ tags ∨ "smart" ∈ tags
    · rw [if_pos hf]; decide
    · rw [if_neg hf]
  · rintro ⟨h1, h2⟩
    refine hbase ("gray", "navy") ?_
    simp only [default_base_accent]
    rw [if_neg (by linarith : ¬w.feels_c ≤ 8), if_pos h2]
    by_cases hf : "formal" ∈ tags ∨ "smart" ∈ tags
    · rw [if_pos hf]; decide
    · rw [if_neg hf]
  · rintro ⟨h1, h2⟩
    refine hbase ("neutral", "blue") ?_
    simp only [default_base_accent]
    rw [if_neg (by linarith : ¬w.feels_c ≤ 8), if_neg (by linarith : ¬w.feels_c ≤ 16),
      if_pos h2]
    by_cases hf : "formal" ∈ tags ∨ "smart" ∈ tags
    · rw [if_pos hf]; decide
    · rw [if_neg hf]
  · intro h23
    constructor
    · intro hf
      refine hbase ("navy", "green") ?_
      simp only [default_base_accent]
      rw [if_neg (by linarith : ¬w.feels_c ≤ 8), if_neg (by linarith : ¬w.feels_c ≤ 16),
        if_neg (by linarith : ¬w.feels_c ≤ 23), if_pos hf]
      decide
    · intro hf
      refine hbase ("white", "green") ?_
      simp only [default_base_accent]
      rw [if_neg (by linarith : ¬w.feels_c ≤ 8), if_neg (by linarith : ¬w.feels_c ≤ 16),
        if_neg (by linarith : ¬w.feels_c ≤ 23), if_neg hf]

theorem default_palette_amended_witness :
    (recommend_colors wCool ["casual"] init_prefs).base = "gray" ∧
    (recommend_colors wCool ["casual"] init_prefs).accent = "navy" :=
  (default_palette_amended wCool ["casual"] init_prefs (by decide)).2.1
    ⟨by norm_num [wCool], by norm_num [wCool]⟩

/-- C6 (amended): every `banned_keywords` entry that is a substring of the
lower-cased name costs -7.0, so a matched item scores at most its unbanned
score minus 7.0; and a chosen item's score is maximal — no alternative scores
strictly higher — but equal scores fall to the earlier wardrobe item, so
"every alternative scores lower still" holds only up to ties. -/
theorem banned_keyword_penalty :
    (∀ (item : Item) (wt : List String) (p : Prefs) (w : Weather) (c : String)
        (tb : List String),
      (∃ b ∈ p.banned_keywords, strIn (lowerStr b) (lowerStr item.name) = true) →
      score_item item wt p w c tb
        ≤ score_item item wt { p with banned_keywords := [] } w c tb - 7) ∧
    (∀ (items : List Item) (wt : List String) (p : Prefs) (w : Weather) (c : String)
        (tb : List String) (x : Item),
      pick_best items wt p w c tb = some x →
      ∀ y ∈ items, score_item y wt p w c tb ≤ score_item x wt p w c tb) := by
  constructor
  · intro item wt p w c tb h
    have hsplit := score_item_split_banned item wt p w c tb
    have hle := bannedScore_le_neg7 (lowerStr item.name) p.banned_keywords h
    linarith
  · intro items wt p w c tb x h
    exact (pick_best_mem_max items wt p w c tb x h).2

theorem banned_keyword_penalty_witness :
    score_item shoeX1 [] prefsBanX wCool "shoes" []
      ≤ score_item shoeX1 [] { prefsBanX with banned_keywords := [] } wCool "shoes" []
          - 7 :=
  banned_keyword_penalty.1 shoeX1 [] prefsBanX wCool "shoes" []
    ⟨"x", by decide, by decide⟩

/-- C6 counterexample: both shoes contain the banned keyword "x" and score
equally; `pick_best` chooses the first, although the alternative does not
score strictly lower — the claim's "chosen only if every alternative scores
lower still" fails on ties. -/
theorem banned_tie_cex :
    pick_best [shoeX1, shoeX2] [] prefsBanX wCool "shoes" [] = some shoeX1 ∧
    score_item shoeX2 [] prefsBanX wCool "shoes" []
        = score_item shoeX1 [] prefsBanX wCool "shoes" [] ∧
    strIn "x" (lowerStr shoeX1.name) = true ∧
    "x" ∈ prefsBanX.banned_keywords := by
  refine ⟨pick_best_shoeX_eval, ?_, by decide, by decide⟩
  simp only [shoeX1, shoeX2, score_shoeX1_eval, score_shoeX2_eval]

/-- C7: the ideal warmth follows the feels-like band table (≤0 → 6, ≤8 → 5,
≤16 → 3.5, ≤23 → 2.5, ≤29 → 1.5, >29 → 0.5) plus `warmth_bias`, floored at
0; and for the tops/bottoms/outer categories the item score is weakly
decreasing in the distance |warmth − ideal|, strictly whenever the closer
distance has not yet hit the 0 floor of the `max(0, 2.2 − d)` contribution. -/
theorem warmth_closeness :
    (∀ feels bias : ℚ,
      ideal_warmth feels bias
        = max 0 ((if feels ≤ 0 then (6 : ℚ)
            else if feels ≤ 8 then 5
            else if feels ≤ 16 then 3.5
            else if feels ≤ 23 then 2.5
            else if feels ≤ 29 then 1.5
            else 0.5) + bias)) ∧
    (∀ (n : String) (tg : List String) (ro : Option Bool) (wt : List String)
        (p : Prefs) (w : Weather) (c : String) (tb : List String) (w1 w2 : ℚ),
      (c = "tops" ∨ c = "bottoms" ∨ c = "outer") →
      |w1 - ideal_warmth w.feels_c p.warmth_bias|
          ≤ |w2 - ideal_warmth w.feels_c p.warmth_bias| →
      score_item ⟨n, tg, some w2, ro⟩ wt p w c tb
        ≤ score_item ⟨n, tg, some w1, ro⟩ wt p w c tb) ∧
    (∀ (n : String) (tg : List String) (ro : Option Bool) (wt : List String)
        (p : Prefs) (w : Weather) (c : String) (tb : List String) (w1 w2 : ℚ),
      (c = "tops" ∨ c = "bottoms" ∨ c = "outer") →
      |w1 - ideal_warmth w.feels_c p.warmth_bias|
          < |w2 - ideal_warmth w.feels_c p.warmth_bias| →
      |w1 - ideal_warmth w.feels_c p.warmth_bias| < 2.2 →
      score_item ⟨n, tg, some w2, ro⟩ wt p w c tb
        < score_item ⟨n, tg, some w1, ro⟩ wt p w c tb) := by
  refine ⟨ideal_warmth_table, ?_, ?_⟩
  · intro n tg ro wt p w c tb w1 w2 _ h
    simp only [score_item, Option.getD_some]
    have hmono := warmthScore_anti c w.feels_c p.warmth_bias w1 w2 h
    linarith
  · intro n tg ro wt p w c tb w1 w2 hc h1 h2
    simp only [score_item, Option.getD_some]
    have hmono := warmthScore_strict_anti c hc w.feels_c p.warmth_bias w1 w2 h1 h2
    linarith

theorem warmth_closeness_witness :
    score_item ⟨"테스트 상의", [], some 6, none⟩ [] init_prefs wCool "tops" []
        < score_item ⟨"테스트 상의", [], some 3, none⟩ [] init_prefs wCool "tops" [] := by
  have hiw : ideal_warmth wCool.feels_c init_prefs.warmth_bias = 3.5 := by
    rw [ideal_warmth_table]
    rw [show wCool.feels_c = 10 from rfl, show init_prefs.warmth_bias = 0 from rfl]
    rw [max_eq_right (by norm_num : (0 : ℚ) ≤ (if (10 : ℚ) ≤ 0 then (6 : ℚ)
        else if (10 : ℚ) ≤ 8 then 5 else if (10 : ℚ) ≤ 16 then 3.5
        else if (10 : ℚ) ≤ 23 then 2.5 else if (10 : ℚ) ≤ 29 then 1.5 else 0.5) + 0)]
    norm_num
  refine warmth_closeness.2.2 "테스트 상의" [] none [] init_prefs wCool "tops" [] 3 6
    (Or.inl rfl) ?_ ?_
  · rw [hiw]
    rw [show |(3 : ℚ) - 3.5| = 0.5 from by rw [abs_of_nonpos (by norm_num)]; norm_num,
      show |(6 : ℚ) - 3.5| = 2.5 from by rw [abs_of_nonneg (by norm_num)]; norm_num]
    norm_num
  · rw [hiw]
    rw [show |(3 : ℚ) - 3.5| = 0.5 from by rw [abs_of_nonpos (by norm_num)]; norm_num]
    norm_num

/-- `rebuild_profile` reads its `prefs` argument only through `warmth_bias`. -/
theorem rebuild_profile_wb_only (m : List MoodRecord) (c : List ChatMessage)
    (b : List String) (p q : Prefs) (h : p.warmth_bias = q.warmth_bias) :
    rebuild_profile p m c b = rebuild_profile q m c b := by
  simp only [rebuild_profile]
  rw [h]

theorem rebuild_profile_wb (p : Prefs) (m : List MoodRecord) (c : List ChatMessage)
    (b : List String) : (rebuild_profile p m c b).warmth_bias = p.warmth_bias := by
  simp only [rebuild_profile]

/-- C8: `rebuild_profile` is idempotent — rebuilding the already-rebuilt
preferences with the identical inputs returns them unchanged (in particular
identical `signals` and `banned_keywords`) — and `banned_keywords` is the
order-preserving, duplicate-free union of the stripped manual list followed by
the text-derived banned words: it has no duplicates, is an order-preserving
sublist of the concatenation, and holds exactly its members. -/
theorem rebuild_profile_idempotent :
    (∀ (p : Prefs) (m : List MoodRecord) (c : List ChatMessage) (b : List String),
      rebuild_profile (rebuild_profile p m c b) m c b = rebuild_profile p m c b) ∧
    (∀ (p : Prefs) (m : List MoodRecord) (c : List ChatMessage) (b : List String),
      ((rebuild_profile p m c b).banned_keywords).Nodup ∧
      List.Sublist (rebuild_profile p m c b).banned_keywords
        (((b.map pyStrip).filter (fun x => x ≠ "")) ++
          (extract_signals (rebuild_profile p m c b).style_dna).banned_from_text) ∧
      (∀ x, x ∈ (rebuild_profile p m c b).banned_keywords ↔
        (x ∈ (b.map pyStrip).filter (fun x => x ≠ "") ∨
          x ∈ (extract_signals (rebuild_profile p m c b).style_dna).banned_from_text))) := by
  constructor
  · intro p m c b
    exact rebuild_profile_wb_only m c b _ p (rebuild_profile_wb p m c b)
  · intro p m c b
    refine ⟨dedupKeepFirst_nodup _, dedupKeepFirst_sublist _, ?_⟩
    intro x
    rw [show (rebuild_profile p m c b).banned_keywords
        = dedupKeepFirst
            (((b.map pyStrip).filter (fun x => x ≠ "")) ++
              (extract_signals (rebuild_profile p m c b).style_dna).banned_from_text)
      from rfl]
    rw [mem_dedupKeepFirst, List.mem_append]

/-- C9: the scorer and the per-slot selector degrade gracefully — an item
with no `warmth` field scores exactly as one with warmth 0.0, an item with no
`rain_ok` field exactly as one with `rain_ok = False`, and an empty category
list yields no recommendation (`none`) rather than an error. -/
theorem graceful_defaults :
    (∀ (n : String) (tg : List String) (ro : Option Bool) (wt : List String)
        (p : Prefs) (w : Weather) (c : String) (tb : List String),
      score_item ⟨n, tg, none, ro⟩ wt p w c tb
        = score_item ⟨n, tg, some 0.0, ro⟩ wt p w c tb) ∧
    (∀ (n : String) (tg : List String) (wm : Option ℚ) (wt : List String)
        (p : Prefs) (w : Weather) (c : String) (tb : List String),
      score_item ⟨n, tg, wm, none⟩ wt p w c tb
        = score_item ⟨n, tg, wm, some false⟩ wt p w c tb) ∧
    (∀ (wt : List String) (p : Prefs) (w : Weather) (c : String) (tb : List String),
      pick_best [] wt p w c tb = none) :=
  ⟨fun _ _ _ _ _ _ _ _ => rfl, fun _ _ _ _ _ _ _ _ => rfl, fun _ _ _ _ _ => rfl⟩

/-- C10: per-slot selection breaks ties deterministically by wardrobe order —
`pick_best` returns the item at an index whose score is maximal over the whole
list and which is minimal among the maximal-score indices: every position with
an equal score lies at or after it. -/
theorem pick_best_tie_break (items : List Item) (wanted_tags : List String)
    (prefs : Prefs) (weather : Weather) (category : String) (temp_ban : List String)
    (h : items ≠ []) :
    ∃ i, ∃ hi : i < items.length,
      pick_best items wanted_tags prefs weather category temp_ban
          = some (items.get ⟨i, hi⟩) ∧
      (∀ j (hj : j < items.length),
        score_item (items.get ⟨j, hj⟩) wanted_tags prefs weather category temp_ban
          ≤ score_item (items.get ⟨i, hi⟩) wanted_tags prefs weather category temp_ban) ∧
      (∀ j (hj : j < items.length),
        score_item (items.get ⟨j, hj⟩) wanted_tags prefs weather category temp_ban
            = score_item (items.get ⟨i, hi⟩) wanted_tags prefs weather category
                temp_ban →
          i ≤ j) :=
  sortDesc_head_first_max
    (fun it => score_item it wanted_tags prefs weather category temp_ban) items h

theorem pick_best_tie_break_witness :
    ∃ i, ∃ hi : i < ([shoeA, shoeB] : List Item).length,
      pick_best [shoeA, shoeB] ["casual"] init_prefs wCool "shoes" []
          = some (([shoeA, shoeB] : List Item).get ⟨i, hi⟩) ∧
      (∀ j (hj : j < ([shoeA, shoeB] : List Item).length),
        score_item (([shoeA, shoeB] : List Item).get ⟨j, hj⟩) ["casual"] init_prefs
            wCool "shoes" []
          ≤ score_item (([shoeA, shoeB] : List Item).get ⟨i, hi⟩) ["casual"] init_prefs
              wCool "shoes" []) ∧
      (∀ j (hj : j < ([shoeA, shoeB] : List Item).length),
        score_item (([shoeA, shoeB] : List Item).get ⟨j, hj⟩) ["casual"] init_prefs
              wCool "shoes" []
            = score_item (([shoeA, shoeB] : List Item).get ⟨i, hi⟩) ["casual"]
                init_prefs wCool "shoes" [] →
          i ≤ j) :=
  pick_best_tie_break [shoeA, shoeB] ["casual"] init_prefs wCool "shoes" [] (by decide)

end OOTD
